import Mathlib

/-!
Verification of the row-level detection-and-correction pipeline of the
DataCleaningUsingLLMs repository.  The definitions below are a shallow
embedding of the Python sources:

* `src/Error Detectors/detector_fullMD.py` (streamed response assembly,
  brace repair, parse fallbacks, deterministic field-length and date checks,
  detection merging, summary statistics),
* `src/correct_errors.py` (facility reference lookup, per-row correction
  processing, write-back of corrected fields),
* `src/evaluate.py` (detection metrics).

Python JSON values are modelled by the inductive type `Json`; `json.loads`
is modelled by `jsonParse`, a recursive-descent parser over the character
list with a fuel argument.  JSON numbers are modelled as integers: the
pipeline and all claims exercise only integer literals, so fractional and
exponent forms are outside the model (they fail to parse here, as does a
leading-zero integer, which strict `json.loads` also rejects in the sense
that it stops early and the trailing-input check fails).
-/

set_option maxRecDepth 16384

namespace DataClean

/-- A parsed JSON value, as produced by Python's `json.loads`. -/
inductive Json where
  | null : Json
  | bool (b : Bool) : Json
  | num (n : Int) : Json
  | str (s : String) : Json
  | arr (xs : List Json) : Json
  | obj (kvs : List (String × Json)) : Json

/-- Skip the JSON whitespace characters (space, tab, newline, carriage return). -/
def skipWs : List Char → List Char
  | c :: cs =>
    if c = ' ' ∨ c = '\t' ∨ c = '\n' ∨ c = '\r' then skipWs cs else c :: cs
  | [] => []

/-- Parse the body of a JSON string literal after the opening quote,
handling the escape sequences the model replies use. -/
def parseStringBody : Nat → List Char → String → Option (String × List Char)
  | 0, _, _ => none
  | _ + 1, [], _ => none
  | fuel + 1, c :: cs, acc =>
    if c = '"' then some (acc, cs)
    else if c = '\\' then
      match cs with
      | [] => none
      | e :: cs2 =>
        if e = '"' then parseStringBody fuel cs2 (acc.push '"')
        else if e = '\\' then parseStringBody fuel cs2 (acc.push '\\')
        else if e = '/' then parseStringBody fuel cs2 (acc.push '/')
        else if e = 'n' then parseStringBody fuel cs2 (acc.push '\n')
        else if e = 't' then parseStringBody fuel cs2 (acc.push '\t')
        else if e = 'r' then parseStringBody fuel cs2 (acc.push '\r')
        else if e = 'b' then parseStringBody fuel cs2 (acc.push (Char.ofNat 8))
        else if e = 'f' then parseStringBody fuel cs2 (acc.push (Char.ofNat 12))
        else none
    else parseStringBody fuel cs (acc.push c)

/-- Longest digit run at the head of the character list. -/
def spanDigits : List Char → (List Char × List Char)
  | [] => ([], [])
  | c :: cs =>
    if c.isDigit then
      let p := spanDigits cs
      (c :: p.1, p.2)
    else ([], c :: cs)

/-- Numeric value of a digit run. -/
def digitsVal (ds : List Char) : Nat :=
  ds.foldl (fun a c => a * 10 + (c.toNat - 48)) 0

/-- Parse an (integer) JSON number literal. -/
def parseNum : List Char → Option (Json × List Char)
  | '-' :: rest =>
    match spanDigits rest with
    | ([], _) => none
    | (ds, rest2) => some (Json.num (-(digitsVal ds : Int)), rest2)
  | cs =>
    match spanDigits cs with
    | ([], _) => none
    | (ds, rest2) => some (Json.num (digitsVal ds), rest2)

/-- Insert a key into an association list with Python-dict semantics:
a repeated key keeps its first position but takes the last value. -/
def dictInsert : List (String × Json) → String → Json → List (String × Json)
  | [], k, v => [(k, v)]
  | (k2, v2) :: rest, k, v =>
    if k2 = k then (k2, v) :: rest else (k2, v2) :: dictInsert rest k v

/-- Rebuild an association list with Python-dict key semantics. -/
def dictOf (kvs : List (String × Json)) : List (String × Json) :=
  kvs.foldl (fun d kv => dictInsert d kv.1 kv.2) []

mutual

/-- Recursive-descent JSON value parser (fuel bounds the nesting depth). -/
def parseVal : Nat → List Char → Option (Json × List Char)
  | 0, _ => none
  | fuel + 1, cs =>
    match skipWs cs with
    | 'n' :: 'u' :: 'l' :: 'l' :: rest => some (Json.null, rest)
    | 't' :: 'r' :: 'u' :: 'e' :: rest => some (Json.bool true, rest)
    | 'f' :: 'a' :: 'l' :: 's' :: 'e' :: rest => some (Json.bool false, rest)
    | '"' :: rest =>
      match parseStringBody (rest.length + 1) rest "" with
      | some (s, rest2) => some (Json.str s, rest2)
      | none => none
    | '[' :: rest =>
      (match skipWs rest with
       | ']' :: rest2 => some (Json.arr [], rest2)
       | rest2 =>
         match parseVal fuel rest2 with
         | some (v, rest3) => parseArrTail fuel rest3 [v]
         | none => none)
    | '\x7b' :: rest =>
      (match skipWs rest with
       | '\x7d' :: rest2 => some (Json.obj [], rest2)
       | rest2 =>
         match parseMember fuel rest2 with
         | some (kv, rest3) => parseObjTail fuel rest3 [kv]
         | none => none)
    | rest => parseNum rest

/-- Parse the remaining elements of a JSON array after the first element. -/
def parseArrTail : Nat → List Char → List Json → Option (Json × List Char)
  | 0, _, _ => none
  | fuel + 1, cs, acc =>
    match skipWs cs with
    | ']' :: rest => some (Json.arr acc.reverse, rest)
    | ',' :: rest =>
      match parseVal fuel rest with
      | some (v, rest2) => parseArrTail fuel rest2 (v :: acc)
      | none => none
    | _ => none

/-- Parse one key-value member of a JSON object. -/
def parseMember : Nat → List Char → Option ((String × Json) × List Char)
  | 0, _ => none
  | fuel + 1, cs =>
    match skipWs cs with
    | '"' :: rest =>
      match parseStringBody (rest.length + 1) rest "" with
      | some (k, rest2) =>
        (match skipWs rest2 with
         | ':' :: rest3 =>
           match parseVal fuel rest3 with
           | some (v, rest4) => some ((k, v), rest4)
           | none => none
         | _ => none)
      | none => none
    | _ => none

/-- Parse the remaining members of a JSON object after the first member. -/
def parseObjTail : Nat → List Char → List (String × Json) → Option (Json × List Char)
  | 0, _, _ => none
  | fuel + 1, cs, acc =>
    match skipWs cs with
    | '\x7d' :: rest => some (Json.obj (dictOf acc.reverse), rest)
    | ',' :: rest =>
      match parseMember fuel rest with
      | some (kv, rest2) => parseObjTail fuel rest2 (kv :: acc)
      | none => none
    | _ => none

end

/-- Model of `json.loads`: parse one JSON document, requiring that only
whitespace remains afterwards, and `none` on `JSONDecodeError`. -/
def jsonParse (s : String) : Option Json :=
  let cs := s.toList
  match parseVal (cs.length + 1) cs with
  | some (v, rest) => if skipWs rest = [] then some v else none
  | none => none

/-- Python dict lookup on a parsed JSON object. -/
def objGet (kvs : List (String × Json)) (k : String) : Option Json :=
  (kvs.find? (fun kv => kv.1 == k)).map (fun kv => kv.2)

/-- A single-quote character, for Python `repr` output. -/
def sq : String := String.singleton (Char.ofNat 39)

mutual

/-- Python `repr` of a parsed JSON value. -/
def pyRepr : Json → String
  | Json.null => "None"
  | Json.bool true => "True"
  | Json.bool false => "False"
  | Json.num n => toString n
  | Json.str s => sq ++ s ++ sq
  | Json.arr xs => "[" ++ pyReprSeq xs ++ "]"
  | Json.obj kvs => "\x7b" ++ pyReprKVs kvs ++ "\x7d"

/-- Comma-separated `repr` of list elements. -/
def pyReprSeq : List Json → String
  | [] => ""
  | [x] => pyRepr x
  | x :: y :: rest => pyRepr x ++ ", " ++ pyReprSeq (y :: rest)

/-- Comma-separated `repr` of dict members. -/
def pyReprKVs : List (String × Json) → String
  | [] => ""
  | [(k, v)] => sq ++ k ++ sq ++ ": " ++ pyRepr v
  | (k, v) :: kv2 :: rest => sq ++ k ++ sq ++ ": " ++ pyRepr v ++ ", " ++ pyReprKVs (kv2 :: rest)

end

/-- Python `str` of a parsed JSON value (`str` of a string is the string
itself; containers print via `repr`). -/
def pyStr : Json → String
  | Json.str s => s
  | j => pyRepr j

/-! ### Python string primitives

Modelled directly on character lists so that every pipeline function is
kernel-computable on concrete inputs. -/

/-- A character stripped by Python's `str.strip()`. -/
def isWsChar (c : Char) : Bool :=
  c == ' ' || c == '\t' || c == '\n' || c == '\r'
    || c == Char.ofNat 11 || c == Char.ofNat 12

/-- Drop leading whitespace characters. -/
def dropWhileWs : List Char → List Char
  | [] => []
  | c :: cs => if isWsChar c then dropWhileWs cs else c :: cs

/-- Python `str.strip()`: remove leading and trailing whitespace. -/
def pyStrip (s : String) : String :=
  String.mk (List.reverse (dropWhileWs (List.reverse (dropWhileWs s.toList))))

/-- Python `str.endswith("\x7d")`. -/
def pyEndsWithBrace (s : String) : Bool :=
  match s.toList.getLast? with
  | some c => c == '\x7d'
  | none => false

/-- `needle` starts `hay`. -/
def listStartsWith : List Char → List Char → Bool
  | [], _ => true
  | _ :: _, [] => false
  | a :: as, b :: bs => a == b && listStartsWith as bs

/-- `needle` occurs somewhere in `hay`. -/
def listContainsSub (hay needle : List Char) : Bool :=
  listStartsWith needle hay ||
    match hay with
    | [] => false
    | _ :: t => listContainsSub t needle

/-- True when `needle` occurs in `hay` (Python's `needle in hay` on strings). -/
def strContainsSub (hay needle : String) : Bool :=
  listContainsSub hay.toList needle.toList

/-- Python `str.lower()` on ASCII. -/
def lowerChar (c : Char) : Char :=
  if 'A' ≤ c ∧ c ≤ 'Z' then Char.ofNat (c.toNat + 32) else c

/-- Python `str.lower()` of a string. -/
def pyLower (s : String) : String := String.mk (s.toList.map lowerChar)

/-- Split on a single-character separator (Python `str.split(sep)` for the
one-character separators the date formats use). -/
def splitChar (sep : Char) : List Char → List Char → List String
  | [], cur => [String.mk cur.reverse]
  | c :: cs, cur =>
    if c = sep then String.mk cur.reverse :: splitChar sep cs []
    else splitChar sep cs (c :: cur)

/-! ### Rows and cells

A dataset row is an ordered field-name/value mapping.  A cell is either a
string value or pandas's missing-value marker `NaN` (`Cell.na`); the
pipeline stringifies every non-missing cell, so string cells suffice. -/

/-- One value of a dataset row: a string, or pandas `NaN`. -/
inductive Cell where
  | na : Cell
  | str (s : String) : Cell
deriving DecidableEq

/-- A dataset row: ordered mapping of field name to cell value. -/
abbrev Row := List (String × Cell)

/-- Label lookup on a row (`row.get(field)` / `row[field]` success case). -/
def rowGet : Row → String → Option Cell
  | [], _ => none
  | kv :: rest, field => if kv.1 = field then some kv.2 else rowGet rest field

/-- Python truthiness of `row.get(field)`: `None` and the empty string are
falsy; `NaN` is truthy. -/
def cellTruthy : Option Cell → Bool
  | none => false
  | some Cell.na => true
  | some (Cell.str s) => s != ""

/-- Python `str` of `row.get(field)` (`str(nan)` is `"nan"`). -/
def pyCellStr : Option Cell → String
  | none => "None"
  | some Cell.na => "nan"
  | some (Cell.str s) => s

/-- pandas `==` comparison of cell values: `NaN` compares unequal to
everything, including itself. -/
def cellEq : Cell → Cell → Bool
  | Cell.str a, Cell.str b => a == b
  | _, _ => false

/-! ### Streamed response assembly (detector_fullMD.py lines 88-100)

The transport yields a list of lines; each line is `json.loads`-decoded,
non-JSON lines are skipped, and the `response` fragments of decoded object
lines are concatenated.  A line that decodes to JSON of the wrong shape
makes the loop body raise (`TypeError`), which the outer handler turns
into a processing_error result; such raises are modelled by
`Except.error`.  A transport failure before any line arrives is modelled
by passing `Except.error msg` as the stream. -/

/-- Process one stream line: `Except.ok none` when it contributes nothing
(undecodable, or no usable `response` key), `Except.ok (some s)` when it
contributes fragment `s`, `Except.error` when the Python loop body raises. -/
def fragmentOf (line : String) : Except String (Option String) :=
  match jsonParse line with
  | none => Except.ok none
  | some (Json.obj kvs) =>
    match objGet kvs "response" with
    | none => Except.ok none
    | some (Json.str s) => Except.ok (some s)
    | some _ => Except.error "TypeError: can only concatenate str"
  | some (Json.str s) =>
    if strContainsSub s "response" then Except.error "TypeError: string indices must be integers"
    else Except.ok none
  | some (Json.arr xs) =>
    if xs.any (fun x => match x with | Json.str s => s == "response" | _ => false) then
      Except.error "TypeError: list indices must be integers"
    else Except.ok none
  | some _ => Except.error "TypeError: argument of wrong type is not iterable"

/-- Accumulate the `response` fragments of the stream lines in arrival
order, skipping empty and undecodable lines. -/
def assembleText : List String → String → Except String String
  | [], acc => Except.ok acc
  | l :: ls, acc =>
    if l = "" then assembleText ls acc
    else
      match fragmentOf l with
      | Except.error m => Except.error m
      | Except.ok none => assembleText ls acc
      | Except.ok (some s) => assembleText ls (acc ++ s)

/-- Full accumulated response text of a stream, or the transport failure. -/
def streamText : Except String (List String) → Except String String
  | Except.error m => Except.error m
  | Except.ok lines => assembleText lines ""

/-- Append a closing brace when the stripped accumulated text does not
already end with one (detector_fullMD.py lines 98-100). -/
def braceRepair (s : String) : String :=
  if pyEndsWithBrace (pyStrip s) then s else s ++ "\x7d"

/-- The fragment a benign line contributes (specification-side companion of
`fragmentOf`, used to state what the assembler concatenates). -/
def goodFragment (l : String) : Option String :=
  if l = "" then none
  else
    match fragmentOf l with
    | Except.ok (some s) => some s
    | _ => none

/-- A line whose processing does not raise. -/
def chunkBenign (l : String) : Bool :=
  match fragmentOf l with
  | Except.error _ => false
  | Except.ok _ => true

/-- Concatenation of a fragment list in order. -/
def concatFragments : List String → String
  | [] => ""
  | s :: rest => s ++ concatFragments rest

/-! ### Detection results (detector_fullMD.py lines 102-133) -/

/-- The per-row detection verdict assembled by `detect_errors_in_row`.
`error_detection`, `errors` and `reasoning` hold whatever JSON values the
model reply supplied (the code does not validate their shapes). -/
structure DetectionResult where
  row_number : Int
  error_detection : Json
  errors : Json
  reasoning : Json

/-- An error entry dict as built by the deterministic validators and the
fallback branches. -/
def errorEntryJson (field etype desc : String) : Json :=
  Json.obj [("field", Json.str field), ("error_type", Json.str etype),
            ("description", Json.str desc)]

/-- Model of `detect_errors_in_row`: assemble the streamed text, repair the
trailing brace, parse, and fall back to a parse_error result on
`JSONDecodeError` or a processing_error result when anything else raises
(transport failure, or `.get` on a non-dict reply). -/
def detect_errors_in_row (rowNumber : Int) (stream : Except String (List String)) :
    DetectionResult :=
  match streamText stream with
  | Except.error msg =>
    { row_number := rowNumber, error_detection := Json.str "error",
      errors := Json.arr [errorEntryJson "general" "processing_error" msg],
      reasoning := Json.str ("Error processing row: " ++ msg) }
  | Except.ok acc =>
    let repaired := braceRepair acc
    match jsonParse repaired with
    | some (Json.obj kvs) =>
      { row_number := rowNumber,
        error_detection := (objGet kvs "error_detection").getD (Json.str "error"),
        errors := (objGet kvs "errors").getD (Json.arr []),
        reasoning := (objGet kvs "reasoning").getD (Json.str "No specific reasoning provided") }
    | some _ =>
      { row_number := rowNumber, error_detection := Json.str "error",
        errors := Json.arr [errorEntryJson "general" "processing_error"
          "AttributeError: object has no attribute get"],
        reasoning := Json.str
          "Error processing row: AttributeError: object has no attribute get" }
    | none =>
      { row_number := rowNumber, error_detection := Json.str "error",
        errors := Json.arr [errorEntryJson "general" "parse_error"
          "Failed to parse model response"],
        reasoning := Json.str (pyStrip repaired) }

/-! ### Deterministic checks (detector_fullMD.py lines 135-163)

`pd.to_datetime` is modelled by `pdToDatetime`, covering the formats this
dataset carries: month-first slash dates (`MM/DD/YYYY`) and dashed ISO
dates (`YYYY-MM-DD`), with real calendar validity including leap years.
pandas's further inference fallbacks are outside the model; a value none
of these formats matches is the "cannot be parsed" case, which in the
source raises and is mapped to `invalid_date_format`. -/

/-- A calendar date. -/
structure Date where
  year : Int
  month : Nat
  day : Nat
deriving DecidableEq

/-- Gregorian leap-year test. -/
def isLeapYear (y : Int) : Bool :=
  (y % 4 == 0 && y % 100 != 0) || y % 400 == 0

/-- Number of days of a month. -/
def daysInMonth (y : Int) (m : Nat) : Nat :=
  if m = 2 then (if isLeapYear y then 29 else 28)
  else if m = 4 ∨ m = 6 ∨ m = 9 ∨ m = 11 then 30
  else 31

/-- Calendar validity of a year/month/day triple. -/
def validDate (y : Int) (m d : Nat) : Bool :=
  1 ≤ m && m ≤ 12 && 1 ≤ d && d ≤ daysInMonth y m

/-- Non-empty all-digit string. -/
def allDigits (s : String) : Bool :=
  s.length != 0 && s.toList.all Char.isDigit

/-- Numeric value of an all-digit string. -/
def natOfDigits (s : String) : Nat := digitsVal s.toList

/-- Parse a month-first slash date `MM/DD/YYYY` (1- or 2-digit month/day). -/
def parseDateMDY (s : String) : Option Date :=
  match splitChar '/' s.toList [] with
  | [ms, ds, ys] =>
    if allDigits ms && allDigits ds && allDigits ys
        && ys.length == 4 && ms.length ≤ 2 && ds.length ≤ 2 then
      let m := natOfDigits ms
      let d := natOfDigits ds
      let y : Int := natOfDigits ys
      if validDate y m d then some ⟨y, m, d⟩ else none
    else none
  | _ => none

/-- Parse a dashed ISO date `YYYY-MM-DD`. -/
def parseDateYMD (s : String) : Option Date :=
  match splitChar '-' s.toList [] with
  | [ys, ms, ds] =>
    if allDigits ms && allDigits ds && allDigits ys
        && ys.length == 4 && ms.length ≤ 2 && ds.length ≤ 2 then
      let m := natOfDigits ms
      let d := natOfDigits ds
      let y : Int := natOfDigits ys
      if validDate y m d then some ⟨y, m, d⟩ else none
    else none
  | _ => none

/-- Model of `pd.to_datetime` restricted to the dataset's date formats;
`none` models the raising case. -/
def pdToDatetime (s : String) : Option Date :=
  match parseDateMDY s with
  | some d => some d
  | none => parseDateYMD s

/-- Model of `validate_field_length` (lines 135-143): flag a truthy value
whose stringification exceeds the maximum length. -/
def validate_field_length (value : Option Cell) (maxLength : Nat) (fieldName : String) :
    Option Json :=
  if cellTruthy value = true ∧ (pyCellStr value).length > maxLength then
    some (errorEntryJson fieldName "length_violation"
      ("Value exceeds maximum length of " ++ toString maxLength ++ " characters"))
  else none

/-- Model of `validate_date_field` (lines 145-163): missing values pass,
unparseable values flag `invalid_date_format`, parseable values outside
1900..(current year + 1) flag `invalid_date`. -/
def validate_date_field (value : Option Cell) (fieldName : String) (currentYear : Int) :
    Option Json :=
  match value with
  | none => none
  | some Cell.na => none
  | some (Cell.str s) =>
    match pdToDatetime s with
    | some d =>
      if d.year < 1900 ∨ d.year > currentYear + 1 then
        some (errorEntryJson fieldName "invalid_date"
          ("Date " ++ s ++ " is outside acceptable range"))
      else none
    | none =>
      some (errorEntryJson fieldName "invalid_date_format" ("Invalid date format: " ++ s))

/-! ### Detection merging (detector_fullMD.py lines 190-226) -/

/-- The per-field maximum lengths checked deterministically (lines 194-208).
Note that `ZIP Code` has no entry. -/
def field_lengths : List (String × Nat) :=
  [("Facility ID", 6), ("Facility Name", 72), ("Address", 51), ("City/Town", 20),
   ("State", 2), ("County/Parish", 25), ("Telephone Number", 14), ("Condition", 35),
   ("Measure ID", 19), ("Measure Name", 168), ("Score", 13), ("Sample", 13),
   ("Footnote", 9)]

/-- The date fields checked deterministically (line 216). -/
def dateFields : List String := ["Start Date", "End Date"]

/-- All deterministic findings for one row, in check order (lines 190-219). -/
def additional_errors (row : Row) (currentYear : Int) : List Json :=
  field_lengths.filterMap (fun fl => validate_field_length (rowGet row fl.1) fl.2 fl.1)
    ++ dateFields.filterMap (fun f => validate_date_field (rowGet row f) f currentYear)

/-- The merge step (lines 222-224): when the deterministic findings are
non-empty, force the verdict to `"error"` and extend the model's error
list with them.  `none` models the `AttributeError` raised by
`.extend` when the model's `errors` value is not a list, which aborts
`analyze_csv` as a whole. -/
def mergeDetection (res : DetectionResult) (additional : List Json) :
    Option DetectionResult :=
  match additional with
  | [] => some res
  | _ =>
    match res.errors with
    | Json.arr es =>
      some { res with error_detection := Json.str "error",
                      errors := Json.arr (es ++ additional) }
    | _ => none

/-- One row of the `analyze_csv` loop: model detection plus deterministic
checks, merged. -/
def analyzeRow (rowNumber : Int) (row : Row) (stream : Except String (List String))
    (currentYear : Int) : Option DetectionResult :=
  mergeDetection (detect_errors_in_row rowNumber stream) (additional_errors row currentYear)

/-- The `analyze_csv` row loop over a dataset, pairing each row with its
model stream; 1-based row numbering starts at `n`.  `none` models the
whole-run abort of the outer exception handler. -/
def analyze_csv : List (Row × Except String (List String)) → Int → Int →
    Option (List DetectionResult)
  | [], _, _ => some []
  | p :: rest, n, currentYear =>
    match analyzeRow n p.1 p.2 currentYear with
    | none => none
    | some r =>
      match analyze_csv rest (n + 1) currentYear with
      | none => none
      | some rs => some (r :: rs)

/-! ### Summary statistics (detector_fullMD.py lines 240-269) -/

/-- Python `r.error_detection == "error"` on the stored JSON value. -/
def isErrorVerdict : Json → Bool
  | Json.str s => s == "error"
  | _ => false

/-- `rows_with_errors` of the saved summary. -/
def rows_with_errors (results : List DetectionResult) : Nat :=
  (results.filter (fun r => isErrorVerdict r.error_detection)).length

/-- `error_rate` of the saved summary, as an exact rational percentage. -/
def error_rate (results : List DetectionResult) : ℚ :=
  if results.length > 0 then
    ((rows_with_errors results : ℚ) / (results.length : ℚ)) * 100
  else 0

/-! ### Facility reference lookup (correct_errors.py lines 26-44) -/

/-- The 7-tuple of facility-descriptive columns used for deduplication. -/
def facilityCols : List String :=
  ["Facility Name", "Address", "City/Town", "State", "ZIP Code",
   "County/Parish", "Telephone Number"]

/-- Deduplication key of a row: its facility-descriptive values.  pandas
`drop_duplicates` treats `NaN` as equal to `NaN`, which structural cell
equality captures. -/
def facilityKey (r : Row) : List (Option Cell) := facilityCols.map (rowGet r)

/-- `drop_duplicates` on the facility columns: keep the first row of each
distinct key, preserving file order. -/
def dropDupFacility : List Row → List (List (Option Cell)) → List Row
  | [], _ => []
  | r :: rs, seen =>
    if facilityKey r ∈ seen then dropDupFacility rs seen
    else r :: dropDupFacility rs (facilityKey r :: seen)

/-- `df['Facility ID'] == facility_id` on one row (pandas `==`: `NaN`
matches nothing). -/
def matchesFacilityId (fid : Cell) (r : Row) : Bool :=
  match rowGet r "Facility ID" with
  | some c => cellEq c fid
  | none => false

/-- The renamed reference record built from a surviving row (lines 35-43). -/
def facilityRefOf (r : Row) : List (String × Option Cell) :=
  [("facility_name", rowGet r "Facility Name"), ("address", rowGet r "Address"),
   ("city", rowGet r "City/Town"), ("state", rowGet r "State"),
   ("zip", rowGet r "ZIP Code"), ("county", rowGet r "County/Parish"),
   ("phone", rowGet r "Telephone Number")]

/-- Model of `get_facility_examples`: filter the dataset to the facility
identifier, deduplicate on the descriptive 7-tuple, and return the record
of `iloc[0]` — the first surviving combination — or `none` when no row
matches. -/
def get_facility_examples (df : List Row) (fid : Cell) :
    Option (List (String × Option Cell)) :=
  match dropDupFacility (df.filter (matchesFacilityId fid)) [] with
  | [] => none
  | r :: _ => some (facilityRefOf r)

/-- An empty or missing reference field (used to state the spec's
fewest-blanks tie-break policy). -/
def isBlankField : Option Cell → Bool
  | none => true
  | some Cell.na => true
  | some (Cell.str s) => s == ""

/-- Number of empty/missing fields of a reference record. -/
def blankCount (ref : List (String × Option Cell)) : Nat :=
  (ref.filter (fun kv => isBlankField kv.2)).length

/-! ### Per-row correction processing (correct_errors.py lines 46-197)

The loop over `corrected_fields` is modelled by `processLoop`, with
`stepCorrection` building one `CorrectionRecord`; any raising statement of
the Python loop body is an `Except.error`, which the outer handler of
`process_single_row` maps to "no corrections for this row". -/

/-- The audit record appended per accepted field correction (lines
173-186).  `error_type`, `error_pattern` and `correction_reason` hold raw
JSON values since the code stores them unvalidated. -/
structure CorrectionRecord where
  row_number : Int
  field : String
  original_value : String
  corrected_value : String
  error_type : Json
  error_pattern : Json
  error_description : String
  correction_reason : Json

/-- The fixed `error_patterns` catalogue (lines 210-220). -/
def error_patterns : List (String × String) :=
  [("missing_value", "Field is empty or contains nan"),
   ("length_violation", "Value length does not meet requirements"),
   ("nan_value", "Contains nan instead of valid data"),
   ("typo", "Contains spelling errors or typos"),
   ("invalid_value", "Value does not meet field requirements"),
   ("invalid_format", "Format does not match requirements"),
   ("numeric_value_in_text", "Contains numbers where text is expected"),
   ("invalid_date_format", "Date format does not match MM/DD/YYYY"),
   ("invalid_characters", "Contains invalid or special characters")]

/-- String-keyed table lookup. -/
def lookupStr (table : List (String × String)) (k : String) : Option String :=
  (table.find? (fun kv => kv.1 == k)).map (fun kv => kv.2)

/-- `error_patterns.get(error_pattern, "Unknown error pattern")`: an
unhashable pattern value (list or dict) raises `TypeError`. -/
def errorPatternDesc (pattern : Json) : Except String String :=
  match pattern with
  | Json.arr _ => Except.error "TypeError: unhashable type"
  | Json.obj _ => Except.error "TypeError: unhashable type"
  | Json.str s => Except.ok ((lookupStr error_patterns s).getD "Unknown error pattern")
  | _ => Except.ok "Unknown error pattern"

/-- The generator `next((e['error_type'] for e in result['errors'] if
e['field'] == field), "unknown")` (lines 178-179): the first matching
entry's type, `"unknown"` when none matches, raising on entries that are
not dicts or lack the accessed keys. -/
def findErrorType : List Json → String → Except String Json
  | [], _ => Except.ok (Json.str "unknown")
  | Json.obj kvs :: rest, field =>
    (match objGet kvs "field" with
     | none => Except.error "KeyError: field"
     | some (Json.str f) =>
       if f = field then
         match objGet kvs "error_type" with
         | none => Except.error "KeyError: error_type"
         | some t => Except.ok t
       else findErrorType rest field
     | some _ => findErrorType rest field)
  | _ :: _, _ => Except.error "TypeError: indices must be integers"

/-- One iteration of the `corrected_fields` loop body (lines 165-191),
producing the `CorrectionRecord`, or the exception it raises.  Statement
order follows the source: `str(row[field])` first (possible `KeyError`),
then the `correction_details` lookups, then the record fields. -/
def stepCorrection (resultErrors : List Json) (rowNumber : Int) (row : Row)
    (details : Json) (field : String) (value : Json) : Except String CorrectionRecord :=
  match rowGet row field with
  | none => Except.error "KeyError: field not in row"
  | some cell =>
    match details with
    | Json.obj dkvs =>
      match (objGet dkvs field).getD (Json.obj []) with
      | Json.obj detail =>
        (match findErrorType resultErrors field with
         | Except.error e => Except.error e
         | Except.ok etype =>
           let pattern := (objGet detail "error_pattern").getD (Json.str "unknown")
           match errorPatternDesc pattern with
           | Except.error e => Except.error e
           | Except.ok desc =>
             Except.ok
               { row_number := rowNumber, field := field,
                 original_value := pyCellStr (some cell),
                 corrected_value := pyStr value,
                 error_type := etype, error_pattern := pattern,
                 error_description := desc,
                 correction_reason := (objGet detail "reason").getD
                   (Json.str "Corrected based on field rules and requirements") })
      | _ => Except.error "AttributeError: object has no attribute get"
    | _ => Except.error "AttributeError: object has no attribute get"

/-- The `corrected_fields` loop: accumulate the per-row corrections and
the audit log in iteration order; the first raise aborts the row. -/
def processLoop (resultErrors : List Json) (rowNumber : Int) (row : Row) (details : Json) :
    List (String × Json) → Except String (List (String × Json) × List CorrectionRecord)
  | [] => Except.ok ([], [])
  | (field, value) :: rest =>
    match stepCorrection resultErrors rowNumber row details field value with
    | Except.error e => Except.error e
    | Except.ok record =>
      match processLoop resultErrors rowNumber row details rest with
      | Except.error e => Except.error e
      | Except.ok (cs, log) => Except.ok ((field, value) :: cs, record :: log)

/-- `corrections.get('corrected_fields', {}).items()` and the
`correction_details` default (lines 165-168): raises unless the parsed
reply and its `corrected_fields` value are dicts. -/
def correctionsOf (j : Json) : Except String (List (String × Json) × Json) :=
  match j with
  | Json.obj kvs =>
    (match (objGet kvs "corrected_fields").getD (Json.obj []) with
     | Json.obj items =>
       Except.ok (items, (objGet kvs "correction_details").getD (Json.obj []))
     | _ => Except.error "AttributeError: object has no attribute items")
  | _ => Except.error "AttributeError: object has no attribute get"

/-- Assemble and parse the correction reply (lines 148-161); in
`correct_errors.py` a `json.loads` failure is uncaught locally and lands
in the row-level handler. -/
def replyJson (stream : Except String (List String)) : Except String Json :=
  match streamText stream with
  | Except.error m => Except.error m
  | Except.ok acc =>
    match jsonParse (braceRepair acc) with
    | some j => Except.ok j
    | none => Except.error "JSONDecodeError"

/-- Model of `process_single_row` (lines 46-197): returns the row number,
the proposed corrections (or `none` when the row raised anywhere), and the
audit log (empty when the row raised). -/
def process_single_row (resultErrors : List Json) (rowNumber : Int) (row : Row)
    (stream : Except String (List String)) :
    Int × Option (List (String × Json)) × List CorrectionRecord :=
  match replyJson stream with
  | Except.error _ => (rowNumber, none, [])
  | Except.ok j =>
    match correctionsOf j with
    | Except.error _ => (rowNumber, none, [])
    | Except.ok (items, details) =>
      match processLoop resultErrors rowNumber row details items with
      | Except.error _ => (rowNumber, none, [])
      | Except.ok (cs, log) => (rowNumber, some cs, log)

/-! ### Write-back (correct_errors.py lines 339-343) -/

/-- `corrected_df.at[row_number - 1, field] = value`: replace the cell of
an existing column, or enlarge with a new column. -/
def setCell : Row → String → Cell → Row
  | [], field, v => [(field, v)]
  | kv :: rest, field, v =>
    if kv.1 = field then (field, v) :: rest else kv :: setCell rest field v

/-- Apply a row's proposed corrections in order; the stored value is the
correction's stringification, as written to the output CSV. -/
def applyRowCorrections (row : Row) (cs : List (String × Json)) : Row :=
  cs.foldl (fun r fv => setCell r fv.1 (Cell.str (pyStr fv.2))) row

/-- The orchestrator's guard `if row_corrections:` — a row whose
processing raised (or proposed nothing) stays untouched. -/
def applyResultRow (row : Row) (rowCorrections : Option (List (String × Json))) : Row :=
  match rowCorrections with
  | some cs => if cs.isEmpty then row else applyRowCorrections row cs
  | none => row

/-! ### Detection evaluation (evaluate.py lines 29-41) -/

/-- `1 if "error" in str(item["error_detection"]).lower() else 0`. -/
def detected_flag (ed : Json) : Bool :=
  strContainsSub (pyLower (pyStr ed)) "error"

/-- The predicted-positive list of `evaluate_detection`. -/
def detected_list (items : List Json) : List Bool := items.map detected_flag

/-- Number of `true` entries. -/
def countTrue (l : List Bool) : Nat := (l.filter id).length

/-- Number of positions predicted positive that are actually positive. -/
def truePositives (actual predicted : List Bool) : Nat :=
  ((actual.zip predicted).filter (fun p => p.1 && p.2)).length

/-- sklearn `precision_score` (0 when nothing is predicted positive). -/
def precision_score (actual predicted : List Bool) : ℚ :=
  if countTrue predicted = 0 then 0
  else (truePositives actual predicted : ℚ) / (countTrue predicted : ℚ)

/-- sklearn `recall_score` (0 when nothing is actually positive). -/
def recall_score (actual predicted : List Bool) : ℚ :=
  if countTrue actual = 0 then 0
  else (truePositives actual predicted : ℚ) / (countTrue actual : ℚ)

/-! ### Concrete streams and rows used in the claim instances

Each `...chunk` string is one transport line, a JSON object whose
`response` member carries a fragment of the model's reply. -/

/-- Stream line carrying the first half of the truncated C3 reply. -/
def c3line1 : String :=
  "\x7b\"response\":\"\x7b\\\"row_number\\\":5,\\\"error_detection\\\":\\\"no error\\\",\"\x7d"

/-- A non-JSON stream line, skipped by the assembler. -/
def c3line2 : String := "not json"

/-- Stream line carrying the second half of the truncated C3 reply. -/
def c3line3 : String :=
  "\x7b\"response\":\"\\\"errors\\\":[],\\\"reasoning\\\":\\\"ok\\\"\"\x7d"

/-- The C3 stream: its accumulated text is the claim's truncated object. -/
def c3lines : List String := [c3line1, c3line2, c3line3]

/-- Stream whose accumulated text `oops` is not valid JSON even after
brace repair. -/
def c4chunk : String := "\x7b\"response\": \"oops\"\x7d"

/-- Stream line carrying a degenerate model reply holding only a
row_number: both `error_detection` and `errors` are missing. -/
def c1chunk : String := "\x7b\"response\": \"\x7b\\\"row_number\\\": 1\x7d\"\x7d"

/-- Stream line carrying a reply that says `no error` yet lists one error
entry for the State field. -/
def c2chunk : String :=
  "\x7b\"response\": \"\x7b\\\"error_detection\\\": \\\"no error\\\", \\\"errors\\\": [\x7b\\\"field\\\": \\\"State\\\", \\\"error_type\\\": \\\"typo\\\", \\\"description\\\": \\\"bad\\\"\x7d], \\\"reasoning\\\": \\\"r\\\"\x7d\"\x7d"

/-- The merged result of the C2 witness instance. -/
def c2wMerged : DetectionResult :=
  { row_number := 1, error_detection := Json.str "error",
    errors := Json.arr [errorEntryJson "State" "typo" "bad"],
    reasoning := Json.str "r" }

/-- Stream line carrying a correction reply whose `corrected_fields` names
a field (`Bogus`) that the row does not have. -/
def c10chunk : String :=
  "\x7b\"response\": \"\x7b\\\"corrected_fields\\\": \x7b\\\"Bogus\\\": \\\"x\\\"\x7d\x7d\"\x7d"

/-- A matching facility row whose phone is blank (`NaN`). -/
def c6rowBlank : Row :=
  [("Facility ID", Cell.str "ABC123"), ("Facility Name", Cell.str "Mercy"),
   ("Address", Cell.str "1 Main"), ("City/Town", Cell.str "Springfield"),
   ("State", Cell.str "IL"), ("ZIP Code", Cell.str "62701"),
   ("County/Parish", Cell.str "Sangamon"), ("Telephone Number", Cell.na)]

/-- A matching facility row with complete descriptive fields; it occurs
twice in the C6 dataset, so the two copies deduplicate to one. -/
def c6rowFull : Row :=
  [("Facility ID", Cell.str "ABC123"), ("Facility Name", Cell.str "Mercy"),
   ("Address", Cell.str "1 Main"), ("City/Town", Cell.str "Springfield"),
   ("State", Cell.str "IL"), ("ZIP Code", Cell.str "62701"),
   ("County/Parish", Cell.str "Sangamon"),
   ("Telephone Number", Cell.str "(217) 555-0100")]

/-- The C6 dataset: three rows with identifier ABC123, two sharing
identical descriptive fields and one differing only by a blank phone. -/
def c6df : List Row := [c6rowBlank, c6rowFull, c6rowFull]

/-- The C8 single-row dataset: every field is within its deterministic
limits and dates are valid, but the ZIP Code is `123456789X`. -/
def c8row : Row :=
  [("Facility ID", Cell.str "ABC123"), ("Facility Name", Cell.str "Mercy Hospital"),
   ("Address", Cell.str "1 Main St"), ("City/Town", Cell.str "Springfield"),
   ("State", Cell.str "IL"), ("ZIP Code", Cell.str "123456789X"),
   ("County/Parish", Cell.str "Sangamon"), ("Telephone Number", Cell.str "(217) 555-0100"),
   ("Condition", Cell.str "Heart Attack"), ("Measure ID", Cell.str "OP_1"),
   ("Measure Name", Cell.str "Median time"), ("Score", Cell.str "Not Available"),
   ("Sample", Cell.str "Not Available"), ("Footnote", Cell.str "1"),
   ("Start Date", Cell.str "01/01/2023"), ("End Date", Cell.str "12/31/2023")]

/-- Stream line carrying a reply that reports no error for the C8 row. -/
def c8chunkNoErr : String :=
  "\x7b\"response\": \"\x7b\\\"error_detection\\\": \\\"no error\\\", \\\"errors\\\": [], \\\"reasoning\\\": \\\"ok\\\"\x7d\"\x7d"

/-- Stream line carrying a reply that flags the ZIP Code for the C8 row. -/
def c8chunkZip : String :=
  "\x7b\"response\": \"\x7b\\\"error_detection\\\": \\\"error\\\", \\\"errors\\\": [\x7b\\\"field\\\": \\\"ZIP Code\\\", \\\"error_type\\\": \\\"invalid_format\\\", \\\"description\\\": \\\"bad zip\\\"\x7d], \\\"reasoning\\\": \\\"zip\\\"\x7d\"\x7d"

/-- The merged detection result of the C8 row under the no-error reply. -/
def c8resNoErr : DetectionResult :=
  { row_number := 1, error_detection := Json.str "no error",
    errors := Json.arr [], reasoning := Json.str "ok" }

/-- The merged detection result of the C8 row under the ZIP-flagging reply. -/
def c8resZip : DetectionResult :=
  { row_number := 1, error_detection := Json.str "error",
    errors := Json.arr [errorEntryJson "ZIP Code" "invalid_format" "bad zip"],
    reasoning := Json.str "zip" }

end DataClean

namespace DataClean

theorem assembleText_benign (lines : List String)
    (hb : ∀ l ∈ lines, chunkBenign l = true) :
    ∀ acc, assembleText lines acc =
      Except.ok (acc ++ concatFragments (lines.filterMap goodFragment)) := by
  induction lines with
  | nil =>
    intro acc
    simp [assembleText, concatFragments, String.append_empty]
  | cons l ls ih =>
    have hl : chunkBenign l = true := hb l (List.mem_cons_self l ls)
    have hls : ∀ x ∈ ls, chunkBenign x = true :=
      fun x hx => hb x (List.mem_cons_of_mem l hx)
    intro acc
    by_cases he : l = ""
    · subst he
      have hg : goodFragment "" = none := rfl
      simp [assembleText, hg, ih hls acc]
    · unfold chunkBenign at hl
      cases hf : fragmentOf l with
      | error m => rw [hf] at hl; exact absurd hl (by simp)
      | ok o =>
        cases o with
        | none =>
          have hg : goodFragment l = none := by simp [goodFragment, he, hf]
          simp [assembleText, he, hf, hg, ih hls acc]
        | some s =>
          have hg : goodFragment l = some s := by simp [goodFragment, he, hf]
          simp [assembleText, he, hf, hg, concatFragments, ih hls (acc ++ s),
            String.append_assoc]

/-- C3: the Response Assembler concatenates the `response` fragments of the
decodable chunks in arrival order (skipping non-JSON chunks), appends a
single `\x7d` exactly when the stripped accumulated text does not end with
one, and parses the result; on the claim's truncated accumulated text the
parsed result carries row_number 5, verdict `no error` and no errors. -/
theorem c3_response_assembler (lines : List String)
    (hb : ∀ l ∈ lines, chunkBenign l = true) :
    streamText (Except.ok lines) =
      Except.ok (concatFragments (lines.filterMap goodFragment))
    ∧ (∀ s : String, pyEndsWithBrace (pyStrip s) = false → braceRepair s = s ++ "\x7d")
    ∧ (∀ s : String, pyEndsWithBrace (pyStrip s) = true → braceRepair s = s)
    ∧ detect_errors_in_row 5 (Except.ok c3lines) =
      { row_number := 5, error_detection := Json.str "no error",
        errors := Json.arr [], reasoning := Json.str "ok" } := by
  refine ⟨?_, ?_, ?_, ?_⟩
  · show assembleText lines "" = _
    rw [assembleText_benign lines hb "", String.empty_append]
  · intro s h; simp [braceRepair, h]
  · intro s h; simp [braceRepair, h]
  · rfl

theorem c3_response_assembler_witness :
    streamText (Except.ok c3lines) =
      Except.ok (concatFragments (c3lines.filterMap goodFragment))
    ∧ detect_errors_in_row 5 (Except.ok c3lines) =
      { row_number := 5, error_detection := Json.str "no error",
        errors := Json.arr [], reasoning := Json.str "ok" } :=
  ⟨(c3_response_assembler c3lines (by decide)).1,
   (c3_response_assembler c3lines (by decide)).2.2.2⟩

/-- C4 counterexample: on the stream whose accumulated text is `oops`, the
parse-failure result's `reasoning` is the brace-repaired stripped text
`oops\x7d`, not the raw accumulated text `oops`. -/
theorem c4_counterexample :
    streamText (Except.ok [c4chunk]) = Except.ok "oops"
    ∧ (detect_errors_in_row 1 (Except.ok [c4chunk])).reasoning = Json.str "oops\x7d"
    ∧ Json.str "oops\x7d" ≠ Json.str "oops" :=
  ⟨rfl, rfl, by simp⟩

/-- C4 amended: when the accumulated text is not valid JSON even after the
brace repair, detection returns (never raises) a DetectionResult with
verdict `error`, exactly one parse_error entry, and `reasoning` equal to
the brace-repaired accumulated text, stripped; and on transport-level
failure it returns a processing_error DetectionResult carrying the failure
message, so every row yields a well-formed DetectionResult. -/
theorem c4_parse_fallback (rowNumber : Int) (lines : List String) (acc : String)
    (h1 : assembleText lines "" = Except.ok acc)
    (h2 : jsonParse (braceRepair acc) = none) :
    detect_errors_in_row rowNumber (Except.ok lines) =
      { row_number := rowNumber, error_detection := Json.str "error",
        errors := Json.arr [errorEntryJson "general" "parse_error"
          "Failed to parse model response"],
        reasoning := Json.str (pyStrip (braceRepair acc)) }
    ∧ (∀ msg, detect_errors_in_row rowNumber (Except.error msg) =
      { row_number := rowNumber, error_detection := Json.str "error",
        errors := Json.arr [errorEntryJson "general" "processing_error" msg],
        reasoning := Json.str ("Error processing row: " ++ msg) }) := by
  have h1s : streamText (Except.ok lines) = Except.ok acc := h1
  constructor
  · simp only [detect_errors_in_row, h1s, h2]
  · intro msg; rfl

theorem c4_parse_fallback_witness :
    detect_errors_in_row 1 (Except.ok ["\x7b\"response\": \"nope\"\x7d"]) =
      { row_number := 1, error_detection := Json.str "error",
        errors := Json.arr [errorEntryJson "general" "parse_error"
          "Failed to parse model response"],
        reasoning := Json.str (pyStrip (braceRepair "nope")) } :=
  (c4_parse_fallback 1 ["\x7b\"response\": \"nope\"\x7d"] "nope" rfl rfl).1

theorem mergeDetection_preserves_inv (res : DetectionResult) (es additional : List Json)
    (merged : DetectionResult) (he : res.errors = Json.arr es)
    (hinv : es = [] ↔ res.error_detection = Json.str "no error")
    (hm : mergeDetection res additional = some merged) :
    ∃ es2, merged.errors = Json.arr es2
      ∧ (es2 = [] ↔ merged.error_detection = Json.str "no error") := by
  cases additional with
  | nil =>
    simp only [mergeDetection, Option.some.injEq] at hm
    subst hm
    exact ⟨es, he, hinv⟩
  | cons a as =>
    simp only [mergeDetection, he, Option.some.injEq] at hm
    subst hm
    exact ⟨es ++ a :: as, rfl, iff_of_false (by simp) (by simp)⟩

/-- C1 counterexample: a model reply carrying only a row_number parses
successfully, the missing `error_detection` defaults to `error` and the
missing `errors` list to `[]`; with no deterministic findings the merged
result has an empty error list yet verdict `error`, violating the
post-merge iff for this combination of model reply and deterministic
outcome. -/
theorem c1_counterexample :
    analyzeRow 1 [] (Except.ok [c1chunk]) 2026 =
      some { row_number := 1, error_detection := Json.str "error",
             errors := Json.arr [],
             reasoning := Json.str "No specific reasoning provided" }
    ∧ Json.str "error" ≠ Json.str "no error" :=
  ⟨rfl, by simp⟩

/-- C1 amended: the post-merge iff between an empty error list and the
verdict `no error` holds for every deterministic-check outcome provided
the model-reply side of the merge itself satisfies that iff; an arbitrary
reply (for example one whose `error_detection` field is missing) can
violate it. -/
theorem c1_conditional_invariant (rowNumber : Int) (row : Row)
    (stream : Except String (List String)) (currentYear : Int)
    (es : List Json) (merged : DetectionResult)
    (he : (detect_errors_in_row rowNumber stream).errors = Json.arr es)
    (hinv : es = [] ↔
      (detect_errors_in_row rowNumber stream).error_detection = Json.str "no error")
    (hm : analyzeRow rowNumber row stream currentYear = some merged) :
    ∃ es2, merged.errors = Json.arr es2
      ∧ (es2 = [] ↔ merged.error_detection = Json.str "no error") :=
  mergeDetection_preserves_inv (detect_errors_in_row rowNumber stream) es
    (additional_errors row currentYear) merged he hinv hm

theorem c1_conditional_invariant_witness :
    ∃ es2,
      ({ row_number := 1, error_detection := Json.str "error",
         errors := Json.arr [errorEntryJson "general" "processing_error" "boom"],
         reasoning := Json.str "Error processing row: boom" } : DetectionResult).errors
        = Json.arr es2
      ∧ (es2 = [] ↔
        ({ row_number := 1, error_detection := Json.str "error",
           errors := Json.arr [errorEntryJson "general" "processing_error" "boom"],
           reasoning := Json.str "Error processing row: boom" } : DetectionResult).error_detection
          = Json.str "no error") :=
  c1_conditional_invariant 1 [] (Except.error "boom") 2026
    [errorEntryJson "general" "processing_error" "boom"] _ rfl
    (iff_of_false (List.cons_ne_nil _ _)
      (fun h => absurd (Json.str.inj h) (by decide))) rfl

/-- C2 counterexample: a reply that reports `no error` while listing a
State error entry merges (with no deterministic findings) into a result
whose verdict stays `no error` although the union of the model's errors
and the deterministic errors is non-empty. -/
theorem c2_counterexample :
    analyzeRow 2 [] (Except.ok [c2chunk]) 2026 =
      some { row_number := 2, error_detection := Json.str "no error",
             errors := Json.arr [errorEntryJson "State" "typo" "bad"],
             reasoning := Json.str "r" }
    ∧ ([errorEntryJson "State" "typo" "bad"] : List Json) ≠ []
    ∧ Json.str "no error" ≠ Json.str "error" :=
  ⟨rfl, by simp, by simp⟩

/-- C2 amended: the merged error list is exactly the model's list followed
by the deterministic findings — hence a superset of their union — and the
verdict is forced to `error` whenever the deterministic findings are
non-empty; a non-empty model list alone does not force the verdict. -/
theorem c2_merge_superset (res : DetectionResult) (es additional : List Json)
    (merged : DetectionResult) (he : res.errors = Json.arr es)
    (hm : mergeDetection res additional = some merged) :
    merged.errors = Json.arr (es ++ additional)
    ∧ (∀ e, e ∈ es ∨ e ∈ additional →
        ∃ es2, merged.errors = Json.arr es2 ∧ e ∈ es2)
    ∧ (additional ≠ [] → merged.error_detection = Json.str "error") := by
  cases additional with
  | nil =>
    simp only [mergeDetection, Option.some.injEq] at hm
    subst hm
    refine ⟨by simp [he], ?_, by simp⟩
    intro e hmem
    refine ⟨es, he, ?_⟩
    rcases hmem with h | h
    · exact h
    · exact absurd h (List.not_mem_nil e)
  | cons a as =>
    simp only [mergeDetection, he, Option.some.injEq] at hm
    subst hm
    refine ⟨rfl, ?_, fun _ => rfl⟩
    intro e hmem
    refine ⟨es ++ a :: as, rfl, ?_⟩
    rcases hmem with h | h
    · exact List.mem_append_left _ h
    · exact List.mem_append_right _ h

theorem c2_merge_superset_witness :
    c2wMerged.errors = Json.arr ([] ++ [errorEntryJson "State" "typo" "bad"])
    ∧ c2wMerged.error_detection = Json.str "error" :=
  ⟨(c2_merge_superset
      { row_number := 1, error_detection := Json.str "no error",
        errors := Json.arr [], reasoning := Json.str "r" }
      [] [errorEntryJson "State" "typo" "bad"] c2wMerged rfl rfl).1,
   (c2_merge_superset
      { row_number := 1, error_detection := Json.str "no error",
        errors := Json.arr [], reasoning := Json.str "r" }
      [] [errorEntryJson "State" "typo" "bad"] c2wMerged rfl rfl).2.2 (by simp)⟩

theorem setCell_rowGet_ne (row : Row) (f field : String) (v : Cell) (hne : f ≠ field) :
    rowGet (setCell row f v) field = rowGet row field := by
  induction row with
  | nil => simp [setCell, rowGet, hne]
  | cons kv rest ih =>
    obtain ⟨a, b⟩ := kv
    by_cases ha : a = f
    · subst ha
      simp [setCell, rowGet, hne]
    · by_cases haf : a = field <;> simp [setCell, ha, rowGet, haf, ih, Ne.symm hne]

theorem applyRowCorrections_frame (cs : List (String × Json)) :
    ∀ (row : Row) (field : String), (∀ fv ∈ cs, fv.1 ≠ field) →
      rowGet (applyRowCorrections row cs) field = rowGet row field := by
  induction cs with
  | nil => intro row field _; rfl
  | cons fv rest ih =>
    intro row field h
    have h1 : fv.1 ≠ field := h fv (List.mem_cons_self _ _)
    have h2 : ∀ x ∈ rest, x.1 ≠ field := fun x hx => h x (List.mem_cons_of_mem _ hx)
    show rowGet (applyRowCorrections (setCell row fv.1 (Cell.str (pyStr fv.2))) rest) field
      = rowGet row field
    rw [ih _ field h2, setCell_rowGet_ne _ _ _ _ h1]

theorem processLoop_ok_items (resultErrors : List Json) (rowNumber : Int) (row : Row)
    (details : Json) :
    ∀ (items cs : List (String × Json)) (log : List CorrectionRecord),
      processLoop resultErrors rowNumber row details items = Except.ok (cs, log) →
      cs = items := by
  intro items
  induction items with
  | nil =>
    intro cs log h
    simp only [processLoop, Except.ok.injEq] at h
    exact congrArg Prod.fst h.symm
  | cons fv rest ih =>
    intro cs log h
    obtain ⟨field, value⟩ := fv
    simp only [processLoop] at h
    cases hs : stepCorrection resultErrors rowNumber row details field value with
    | error e => rw [hs] at h; cases h
    | ok record =>
      rw [hs] at h
      cases hr : processLoop resultErrors rowNumber row details rest with
      | error e => rw [hr] at h; cases h
      | ok p =>
        obtain ⟨cs2, log2⟩ := p
        rw [hr] at h
        have hpair := Except.ok.inj h
        have hcs : cs = (field, value) :: cs2 := (congrArg Prod.fst hpair).symm
        rw [hcs, ih cs2 log2 hr]

theorem processLoop_missing_field (resultErrors : List Json) (rowNumber : Int) (row : Row)
    (details : Json) :
    ∀ (items : List (String × Json)) (field : String) (v : Json),
      (field, v) ∈ items → rowGet row field = none →
      ∃ e, processLoop resultErrors rowNumber row details items = Except.error e := by
  intro items
  induction items with
  | nil => intro field v hmem; cases hmem
  | cons fv rest ih =>
    intro field v hmem hmiss
    obtain ⟨f0, v0⟩ := fv
    rcases List.mem_cons.mp hmem with heq | hmem2
    · injection heq with hf hv
      subst hf
      have hs : stepCorrection resultErrors rowNumber row details field v0 =
          Except.error "KeyError: field not in row" := by
        unfold stepCorrection
        rw [hmiss]
      exact ⟨"KeyError: field not in row", by simp only [processLoop, hs]⟩
    · cases hs : stepCorrection resultErrors rowNumber row details f0 v0 with
      | error e => exact ⟨e, by simp only [processLoop, hs]⟩
      | ok record =>
        obtain ⟨e, he⟩ := ih field v hmem2 hmiss
        exact ⟨e, by simp only [processLoop, hs, he]⟩

/-- C5: only fields explicitly returned in the model's `corrected_fields`
mapping are modified — the proposed-corrections list of a successful row
has exactly the `corrected_fields` keys, and writing it back leaves every
field outside those keys with exactly its original value. -/
theorem c5_unmentioned_fields_frame :
    (∀ (row : Row) (cs : List (String × Json)) (field : String),
      (∀ fv ∈ cs, fv.1 ≠ field) →
      rowGet (applyRowCorrections row cs) field = rowGet row field)
    ∧ (∀ (resultErrors : List Json) (rowNumber : Int) (row : Row)
        (details : Json) (items cs : List (String × Json)) (log : List CorrectionRecord),
        processLoop resultErrors rowNumber row details items = Except.ok (cs, log) →
        cs = items) :=
  ⟨fun row cs field h => applyRowCorrections_frame cs row field h,
   fun re rn row details items cs log h => processLoop_ok_items re rn row details items cs log h⟩

theorem c5_unmentioned_fields_frame_witness :
    rowGet (applyRowCorrections [("State", Cell.str "AJ"), ("ZIP Code", Cell.str "62701")]
        [("State", Json.str "IL")]) "ZIP Code"
      = rowGet [("State", Cell.str "AJ"), ("ZIP Code", Cell.str "62701")] "ZIP Code" :=
  c5_unmentioned_fields_frame.1 _ _ "ZIP Code"
    (by intro fv hfv; rw [List.mem_singleton.mp hfv]; decide)

/-- C10: when any field of `corrected_fields` is not a field of the row,
the per-row processing raises internally, the handler returns no
corrections and an empty log, and the write-back leaves the row fully
unchanged — every valid correction of that row is discarded with it. -/
theorem c10_row_discarded (resultErrors : List Json) (rowNumber : Int) (row : Row)
    (stream : Except String (List String)) (j : Json)
    (items : List (String × Json)) (details : Json) (field : String) (v : Json)
    (hreply : replyJson stream = Except.ok j)
    (hco : correctionsOf j = Except.ok (items, details))
    (hmem : (field, v) ∈ items) (hmiss : rowGet row field = none) :
    process_single_row resultErrors rowNumber row stream = (rowNumber, none, [])
    ∧ applyResultRow row (process_single_row resultErrors rowNumber row stream).2.1 = row := by
  obtain ⟨e, he⟩ :=
    processLoop_missing_field resultErrors rowNumber row details items field v hmem hmiss
  have hp : process_single_row resultErrors rowNumber row stream = (rowNumber, none, []) := by
    simp only [process_single_row, hreply, hco, he]
  exact ⟨hp, by rw [hp]; rfl⟩

theorem c10_row_discarded_witness :
    process_single_row [] 3 [("State", Cell.str "AL")] (Except.ok [c10chunk]) = (3, none, [])
    ∧ applyResultRow [("State", Cell.str "AL")]
        (process_single_row [] 3 [("State", Cell.str "AL")] (Except.ok [c10chunk])).2.1
      = [("State", Cell.str "AL")] :=
  c10_row_discarded [] 3 [("State", Cell.str "AL")] (Except.ok [c10chunk])
    (Json.obj [("corrected_fields", Json.obj [("Bogus", Json.str "x")])])
    [("Bogus", Json.str "x")] (Json.obj []) "Bogus" (Json.str "x")
    rfl rfl (List.mem_singleton.mpr rfl) rfl

/-- C6 counterexample: on three ABC123 rows where two share identical
descriptive fields and one differs only by a blank phone, the resolver
returns the first-in-file combination — the one with the blank phone —
although the deduplicated candidate set also contains a combination with
no blanks. -/
theorem c6_counterexample :
    get_facility_examples c6df (Cell.str "ABC123") = some (facilityRefOf c6rowBlank)
    ∧ dropDupFacility (c6df.filter (matchesFacilityId (Cell.str "ABC123"))) []
        = [c6rowBlank, c6rowFull]
    ∧ blankCount (facilityRefOf c6rowBlank) = 1
    ∧ blankCount (facilityRefOf c6rowFull) = 0
    ∧ facilityRefOf c6rowBlank ≠ facilityRefOf c6rowFull :=
  ⟨rfl, rfl, rfl, rfl, by decide⟩

/-- C6 amended: the resolver returns `none` exactly when no row carries
the identifier, and otherwise returns the descriptive combination of the
first matching row in file order (deduplication keeps first occurrences,
so `iloc[0]` is always the first matching row) — blanks are not counted. -/
theorem c6_first_match (df : List Row) (fid : Cell) :
    (df.filter (matchesFacilityId fid) = [] → get_facility_examples df fid = none)
    ∧ (∀ (r : Row) (rs : List Row), df.filter (matchesFacilityId fid) = r :: rs →
        get_facility_examples df fid = some (facilityRefOf r)) := by
  constructor
  · intro h
    unfold get_facility_examples
    rw [h]
    rfl
  · intro r rs h
    unfold get_facility_examples
    rw [h]
    have hd : dropDupFacility (r :: rs) [] = r :: dropDupFacility rs [facilityKey r] := by
      rw [dropDupFacility, if_neg (List.not_mem_nil _)]
    rw [hd]

theorem c6_first_match_witness :
    get_facility_examples [c6rowFull] (Cell.str "ABC123") = some (facilityRefOf c6rowFull) :=
  (c6_first_match [c6rowFull] (Cell.str "ABC123")).2 c6rowFull [] rfl

/-- C7: for a date-field value, the deterministic check flags
invalid_date_format exactly when the value cannot be parsed as a calendar
date, flags invalid_date when it parses to a year before 1900 or after
next calendar year, flags nothing when it parses into that range (so
current- and next-year dates are accepted), and flags nothing for a
missing value. -/
theorem c7_date_range_check (s : String) (field : String) (currentYear : Int) :
    (pdToDatetime s = none →
      validate_date_field (some (Cell.str s)) field currentYear =
        some (errorEntryJson field "invalid_date_format" ("Invalid date format: " ++ s)))
    ∧ (∀ d, pdToDatetime s = some d → (d.year < 1900 ∨ d.year > currentYear + 1) →
      validate_date_field (some (Cell.str s)) field currentYear =
        some (errorEntryJson field "invalid_date"
          ("Date " ++ s ++ " is outside acceptable range")))
    ∧ (∀ d, pdToDatetime s = some d → 1900 ≤ d.year → d.year ≤ currentYear + 1 →
      validate_date_field (some (Cell.str s)) field currentYear = none)
    ∧ validate_date_field none field currentYear = none
    ∧ validate_date_field (some Cell.na) field currentYear = none := by
  refine ⟨?_, ?_, ?_, rfl, rfl⟩
  · intro h
    simp only [validate_date_field, h]
  · intro d hd hrange
    simp only [validate_date_field, hd]
    rw [if_pos hrange]
  · intro d hd h1 h2
    simp only [validate_date_field, hd]
    rw [if_neg (by omega)]

theorem c7_date_range_check_witness :
    validate_date_field (some (Cell.str "99/99/9999")) "Start Date" 2026 =
      some (errorEntryJson "Start Date" "invalid_date_format"
        "Invalid date format: 99/99/9999")
    ∧ validate_date_field (some (Cell.str "01/15/2025")) "Start Date" 2026 = none
    ∧ validate_date_field (some (Cell.str "01/01/1850")) "Start Date" 2026 =
      some (errorEntryJson "Start Date" "invalid_date"
        "Date 01/01/1850 is outside acceptable range") :=
  ⟨(c7_date_range_check "99/99/9999" "Start Date" 2026).1 rfl,
   (c7_date_range_check "01/15/2025" "Start Date" 2026).2.2.1 ⟨2025, 1, 15⟩ rfl
     (by decide) (by decide),
   (c7_date_range_check "01/01/1850" "Start Date" 2026).2.1 ⟨1850, 1, 1⟩ rfl
     (by decide)⟩

/-- C8 counterexample: on the 1-row dataset with ZIP Code `123456789X`,
when the model replies `no error` the merged result has no error entry at
all — the deterministic length table has no ZIP Code rule — and the
summary reports 0 error rows and a 0 error rate, so the claimed outcome
is not independent of the model reply. -/
theorem c8_counterexample :
    analyze_csv [(c8row, Except.ok [c8chunkNoErr])] 1 2026 = some [c8resNoErr]
    ∧ rows_with_errors [c8resNoErr] = 0
    ∧ error_rate [c8resNoErr] = 0
    ∧ field_lengths.find? (fun fl => fl.1 == "ZIP Code") = none := by
  refine ⟨rfl, rfl, ?_, rfl⟩
  have h0 : rows_with_errors [c8resNoErr] = 0 := rfl
  rw [error_rate, h0]
  norm_num

/-- C8 amended: the deterministic checks carry no ZIP Code rule, so the
merged result contains a ZIP Code entry only when the model reports one;
when it does, the 1-row summary reports rows_with_errors 1 and error_rate
100.0. -/
theorem c8_zip_depends_on_model :
    analyze_csv [(c8row, Except.ok [c8chunkZip])] 1 2026 = some [c8resZip]
    ∧ rows_with_errors [c8resZip] = 1
    ∧ error_rate [c8resZip] = 100
    ∧ additional_errors c8row 2026 = []
    ∧ field_lengths.find? (fun fl => fl.1 == "ZIP Code") = none := by
  refine ⟨rfl, rfl, ?_, rfl, rfl⟩
  have h1 : rows_with_errors [c8resZip] = 1 := rfl
  rw [error_rate, h1]
  norm_num

theorem detected_flag_enum (ed : Json)
    (h : ed = Json.str "no error" ∨ ed = Json.str "error") : detected_flag ed = true := by
  rcases h with h | h <;> subst h <;> rfl

theorem countTrue_all_true (l : List Bool) (h : ∀ b ∈ l, b = true) :
    countTrue l = l.length := by
  induction l with
  | nil => rfl
  | cons b rest ih =>
    have hb : b = true := h b (List.mem_cons_self _ _)
    have hrest := ih (fun x hx => h x (List.mem_cons_of_mem _ hx))
    subst hb
    simp only [countTrue, List.filter_cons, id, List.length_cons, if_pos] at hrest ⊢
    omega

theorem truePositives_all_true (actual : List Bool) :
    ∀ (pred : List Bool), actual.length = pred.length → (∀ b ∈ pred, b = true) →
      truePositives actual pred = countTrue actual := by
  induction actual with
  | nil => intro pred _ _; rfl
  | cons a arest ih =>
    intro pred hlen h
    cases pred with
    | nil => simp at hlen
    | cons b brest =>
      have hb : b = true := h b (List.mem_cons_self _ _)
      subst hb
      have hlen2 : arest.length = brest.length := by simpa using hlen
      have h2 : ∀ x ∈ brest, x = true := fun x hx => h x (List.mem_cons_of_mem _ hx)
      have := ih brest hlen2 h2
      cases a <;>
        simp only [truePositives, countTrue, List.zip_cons_cons, List.filter_cons,
          Bool.and_true, Bool.and_false, id] at this ⊢ <;>
        simp [this]

/-- C9: because the evaluator tests whether the substring `error` occurs
in the lowercased verdict and `no error` contains `error`, every result
drawn from the verdict enum counts as a positive detection; hence recall
is 1 whenever any ground-truth row is erroneous and precision equals the
ground-truth error fraction. -/
theorem c9_detection_metrics (items : List Json) (actual : List Bool)
    (henum : ∀ ed ∈ items, ed = Json.str "no error" ∨ ed = Json.str "error")
    (hlen : actual.length = items.length) :
    (∀ ed ∈ items, detected_flag ed = true)
    ∧ (countTrue actual > 0 → recall_score actual (detected_list items) = 1)
    ∧ (actual.length > 0 →
        precision_score actual (detected_list items)
          = (countTrue actual : ℚ) / (actual.length : ℚ)) := by
  have hall : ∀ b ∈ detected_list items, b = true := by
    intro b hb
    obtain ⟨ed, hed, rfl⟩ := List.mem_map.mp hb
    exact detected_flag_enum ed (henum ed hed)
  have hlen2 : actual.length = (detected_list items).length := by
    simp [detected_list, hlen]
  have htp : truePositives actual (detected_list items) = countTrue actual :=
    truePositives_all_true actual (detected_list items) hlen2 hall
  refine ⟨fun ed hed => detected_flag_enum ed (henum ed hed), ?_, ?_⟩
  · intro hpos
    unfold recall_score
    rw [if_neg (by omega), htp]
    exact div_self (Nat.cast_ne_zero.mpr (by omega))
  · intro hpos
    have hct : countTrue (detected_list items) = (detected_list items).length :=
      countTrue_all_true _ hall
    unfold precision_score
    rw [if_neg (by rw [hct, ← hlen2]; omega), htp, hct, ← hlen2]

theorem c9_detection_metrics_witness :
    recall_score [true, false] (detected_list [Json.str "no error", Json.str "error"]) = 1
    ∧ precision_score [true, false] (detected_list [Json.str "no error", Json.str "error"])
      = (countTrue [true, false] : ℚ) / (([true, false] : List Bool).length : ℚ) := by
  have henum : ∀ ed ∈ [Json.str "no error", Json.str "error"],
      ed = Json.str "no error" ∨ ed = Json.str "error" := by
    intro ed hed
    rcases List.mem_cons.mp hed with h | hed2
    · exact Or.inl h
    · rcases List.mem_cons.mp hed2 with h | h3
      · exact Or.inr h
      · cases h3
  exact ⟨(c9_detection_metrics [Json.str "no error", Json.str "error"] [true, false]
      henum rfl).2.1 (by decide),
    (c9_detection_metrics [Json.str "no error", Json.str "error"] [true, false]
      henum rfl).2.2 (by decide)⟩

end DataClean
